import Mathlib

/-!
Shallow embedding of the simtools LED effect engine
(crates/simtools/src/led/effects and crates/simtools/src/moment.rs, plus the
profile deserializers) for checking the natural-language specification.

Modelling conventions:
* `Instant` and `Duration` values are natural numbers (a global clock tick
  count); `state_change.elapsed()` at the current instant `now` is `now -
  state_change` (truncated subtraction, matching the fact that a stored
  `Instant` never lies in the future).
* `f64` telemetry quantities (`AngularVelocity`, `Ratio`, colors) are embedded
  as exact rationals `Rat`; the arithmetic written in the source is performed
  over `Rat`.
* `usize` positions use saturating addition clamped at `2 ^ 64 - 1`, as
  `NonZeroUsize::saturating_add` does.
-/

namespace Simtools

/-- The largest `usize`/`NonZeroUsize` value on a 64-bit target. -/
def usizeMax : Nat := 2 ^ 64 - 1

/-- `NonZeroUsize::saturating_add`: addition that clamps at the maximum
representable position instead of wrapping. -/
def satAdd (a b : Nat) : Nat := min (a + b) usizeMax

/-- An RGBA color (`csscolorparser::Color`), components as exact rationals. -/
structure Color where
  r : ℚ
  g : ℚ
  b : ℚ
  a : ℚ
  deriving DecidableEq

/-- Configuration for a single LED (`LedConfiguration` in effects/mod.rs). -/
inductive LedConfiguration where
  /-- The LED is currently turned on, displaying `color`. -/
  | On (color : Color)
  /-- The LED is currently turned off. This is the `Default` value. -/
  | Off
  deriving DecidableEq

/-- A positioned run of LED configurations (`LedGroup` in effects/mod.rs). -/
structure LedGroup where
  start_position : Nat
  leds : List LedConfiguration
  deriving DecidableEq

namespace LedGroup

/-- `LedGroup::new`: every LED starts in the default `Off` configuration. -/
def new (start_position : Nat) (led_count : Nat) : LedGroup :=
  { start_position, leds := List.replicate led_count .Off }

/-- `LedGroup::with_color`: every LED is on, showing the given color. -/
def with_color (color : Color) (start_position : Nat) (led_count : Nat) : LedGroup :=
  { start_position, leds := List.replicate led_count (.On color) }

end LedGroup

/-- `simetry::RacingFlags`: the three racing flag booleans. -/
structure RacingFlags where
  white : Bool
  yellow : Bool
  blue : Bool
  deriving DecidableEq

/-- A telemetry snapshot (`simetry::Moment` interface): each getter may
independently report "value unavailable". The two derived quantities
`rpm_percentage` and `redline_rpm` are computed by the external `simetry`
library and are treated as part of the interface. -/
structure Moment where
  flags : Option RacingFlags
  vehicle_engine_rotation_speed : Option ℚ
  vehicle_max_engine_rotation_speed : Option ℚ
  vehicle_gear : Option Int
  is_starter_on : Option Bool
  rpm_percentage : ℚ
  redline_rpm : ℚ
  deriving DecidableEq

namespace Moment

/-- `MomentExt::redline_reached` (moment.rs): `false` when either RPM getter is
unavailable, otherwise whether the RPM is within 2% of the maximum RPM. -/
def redline_reached (m : Moment) : Bool :=
  match m.vehicle_engine_rotation_speed with
  | none => false
  | some rpm =>
    match m.vehicle_max_engine_rotation_speed with
    | none => false
    | some max_rpm =>
      let error_margin : ℚ := (2 / 100) * max_rpm
      decide (|max_rpm - rpm| < error_margin)

/-- `MomentExt::is_engine_running` (moment.rs): `false` when the starter flag
or the RPM is unavailable, otherwise starter off and RPM strictly positive. -/
def is_engine_running (m : Moment) : Bool :=
  match m.is_starter_on with
  | none => false
  | some is_starting =>
    match m.vehicle_engine_rotation_speed with
    | none => false
    | some rpm => !is_starting && decide (rpm > 0)

end Moment

/-- Common state for LED effects which support blinking LEDs (`BlinkState`). -/
inductive BlinkState where
  /-- The LEDs are not blinking currently. This is the `Default` value. -/
  | NotBlinking
  /-- Blinking, currently in the off phase since instant `state_change`. -/
  | LedsTurnedOff (state_change : Nat)
  /-- Blinking, currently in the on phase since instant `state_change`. -/
  | LedsTurnedOn (state_change : Nat)
  deriving DecidableEq

/-- `BlinkTimings`: one symmetric delay, or distinct on/off delays. -/
inductive BlinkTimings where
  | Single (timeout : Nat)
  | Double (on_timeout : Nat) (off_timeout : Nat)
  deriving DecidableEq

namespace BlinkTimings

/-- `BlinkTimings::on_timeout`. -/
def on_timeout : BlinkTimings → Nat
  | .Single timeout => timeout
  | .Double on_t _ => on_t

/-- `BlinkTimings::off_timeout`. -/
def off_timeout : BlinkTimings → Nat
  | .Single timeout => timeout
  | .Double _ off_t => off_t

end BlinkTimings

/-- `BlinkConfiguration`: blinking disabled, or enabled with a state and
timings. -/
inductive BlinkConfiguration where
  | Disabled
  | Enabled (state : BlinkState) (timings : BlinkTimings)
  deriving DecidableEq

namespace BlinkConfiguration

/-- `BlinkConfiguration::disable`: reset the state to `NotBlinking` when
blinking is enabled. -/
def disable : BlinkConfiguration → BlinkConfiguration
  | .Disabled => .Disabled
  | .Enabled _ timings => .Enabled .NotBlinking timings

/-- `BlinkConfiguration::update` evaluated at the current instant `now`.
Mirrors the source exactly: the off phase ends once `elapsed >= off_timeout`,
while the on phase ends only once `elapsed > on_timeout` (strict). -/
def update (now : Nat) (should_blink : Bool) : BlinkConfiguration → BlinkConfiguration
  | .Disabled => .Disabled
  | .Enabled state timings =>
    if should_blink then
      match state with
      | .NotBlinking => .Enabled (.LedsTurnedOn now) timings
      | .LedsTurnedOff state_change =>
        if timings.off_timeout ≤ now - state_change then
          .Enabled (.LedsTurnedOn now) timings
        else
          .Enabled (.LedsTurnedOff state_change) timings
      | .LedsTurnedOn state_change =>
        if timings.on_timeout < now - state_change then
          .Enabled (.LedsTurnedOff now) timings
        else
          .Enabled (.LedsTurnedOn state_change) timings
    else
      .Enabled .NotBlinking timings

end BlinkConfiguration

/-- The configuration of an RPM gradient container (`RpmContainer` in
profiles/rpm.rs), restricted to the fields the runtime effect reads. -/
structure RpmContainer where
  description : String
  is_enabled : Bool
  start_position : Nat
  led_count : Nat
  use_percent : Bool
  percent_min : ℚ
  percent_max : ℚ
  rpm_min : ℚ
  rpm_max : ℚ
  start_color : Color
  end_color : Color
  right_to_left : Bool
  blink_enabled : Bool
  blink_delay : Nat
  blink_on_last_gear : Bool
  gradient_on_all : Bool
  fill_all_leds : Bool
  deriving DecidableEq

/-- Sampling the two-stop `colorgrad` gradient the effect builds from
`start_color` and `end_color` over the domain `[0, led_count - 1]`: the
position is clamped to the domain and the colors are linearly interpolated
componentwise. At position `0` this is exactly `start_color`; at the end of
the domain it is exactly `end_color`. -/
def gradientAt (start_color end_color : Color) (domain_max : ℚ) (pos : ℚ) : Color :=
  let t : ℚ := min (max (pos / domain_max) 0) 1
  { r := start_color.r + (end_color.r - start_color.r) * t
    g := start_color.g + (end_color.g - start_color.g) * t
    b := start_color.b + (end_color.b - start_color.b) * t
    a := start_color.a + (end_color.a - start_color.a) * t }

/-- The RPM gradient effect (`RpmGradientEffect` in rpm/gradient.rs). The
`colorgrad::Gradient` field is a pure function of the container's colors and
LED count, so it is recomputed from the container via `gradientAt`. -/
structure RpmGradientEffect where
  container : RpmContainer
  state : LedGroup
  blink_state : BlinkState
  deriving DecidableEq

namespace RpmGradientEffect

/-- `RpmGradientEffect::with_start_position`. -/
def with_start_position (container : RpmContainer) (start_position : Nat) :
    RpmGradientEffect :=
  { state := LedGroup.new start_position container.led_count
    blink_state := .NotBlinking
    container }

/-- `RpmGradientEffect::calculate_how_many_leds_to_turn_on`: the fraction of
the configured range covered by the current RPM, times the LED count, floored
and converted with Rust's saturating `as usize` cast (negative values become
`0`). -/
def calculate_how_many_leds_to_turn_on (e : RpmGradientEffect)
    (rpm max_rpm : ℚ) : Nat :=
  let led_count : Nat := e.state.leds.length
  let percentage_of_leds_to_turn_on : ℚ :=
    if e.container.use_percent then
      let rpm_percentage := rpm / max_rpm * 100
      (rpm_percentage - e.container.percent_min) /
        (e.container.percent_max - e.container.percent_min)
    else
      (rpm - e.container.rpm_min) / (e.container.rpm_max - e.container.rpm_min)
  (⌊percentage_of_leds_to_turn_on * (led_count : ℚ)⌋).toNat

/-- `RpmGradientEffect::calculate_next_blink_state` evaluated at instant
`now`. Both blink branches here use `>=` against `blink_delay`. -/
def calculate_next_blink_state (e : RpmGradientEffect) (now : Nat)
    (sim_state : Moment) : BlinkState :=
  let redline_reached := sim_state.redline_reached
  let blink_enabled := e.container.blink_enabled
  let blink :=
    if e.container.blink_on_last_gear then true
    else decide (sim_state.vehicle_gear ≠ some 6)
  if redline_reached && blink_enabled && blink then
    match e.blink_state with
    | .NotBlinking => .LedsTurnedOn now
    | .LedsTurnedOff state_change =>
      if e.container.blink_delay ≤ now - state_change then .LedsTurnedOn now
      else e.blink_state
    | .LedsTurnedOn state_change =>
      if e.container.blink_delay ≤ now - state_change then .LedsTurnedOff now
      else e.blink_state
  else
    .NotBlinking

/-- The configuration computed for the LED visited at iteration index
`led_number` in `RpmGradientEffect::update`'s render loop. -/
def renderLed (e : RpmGradientEffect) (next_blink_state : BlinkState)
    (leds_to_turn_on : Nat) (led_number : Nat) : LedConfiguration :=
  let gradient_position :=
    if e.container.gradient_on_all then leds_to_turn_on else led_number
  let enabled :=
    match next_blink_state with
    | .NotBlinking =>
      if e.container.gradient_on_all && e.container.fill_all_leds then true
      else decide (led_number < leds_to_turn_on)
    | .LedsTurnedOff _ => false
    | .LedsTurnedOn _ => true
  if enabled then
    .On (gradientAt e.container.start_color e.container.end_color
      ((e.state.leds.length - 1 : Nat) : ℚ) (gradient_position : ℚ))
  else
    .Off

/-- `RpmGradientEffect::update` evaluated at instant `now`: no change when the
RPM or maximum RPM getter is unavailable; otherwise recompute the blink state,
the number of LEDs to turn on, and every LED. When `right_to_left` is set the
render loop walks the LED buffer in reverse, so the LED at buffer index `j`
is visited at iteration index `n - 1 - j`. -/
def update (now : Nat) (sim_state : Moment) (e : RpmGradientEffect) :
    RpmGradientEffect :=
  match sim_state.vehicle_engine_rotation_speed with
  | none => e
  | some rpm =>
    match sim_state.vehicle_max_engine_rotation_speed with
    | none => e
    | some max_rpm =>
      let next_blink_state := e.calculate_next_blink_state now sim_state
      let leds_to_turn_on := e.calculate_how_many_leds_to_turn_on rpm max_rpm
      let n := e.state.leds.length
      let new_leds :=
        (List.range n).map fun j =>
          e.renderLed next_blink_state leds_to_turn_on
            (if e.container.right_to_left then n - 1 - j else j)
      { e with
        state := { start_position := e.state.start_position, leds := new_leds }
        blink_state := next_blink_state }

/-- `RpmGradientEffect::disable`: reset the blink state and force every LED in
the live buffer to `Off`. -/
def disable (e : RpmGradientEffect) : RpmGradientEffect :=
  { e with
    blink_state := .NotBlinking
    state := { start_position := e.state.start_position
               leds := e.state.leds.map fun _ => .Off } }

/-- `RpmGradientEffect::leds`. -/
def ledsOf (e : RpmGradientEffect) : List LedGroup := [e.state]

/-- `RpmGradientEffect::led_count`. -/
def led_count (e : RpmGradientEffect) : Nat := e.state.leds.length

end RpmGradientEffect

/-- Modelled from the spec: `SimpleBlinkContainer`, the common shape of the
flag and redline-reached containers. Its definition lives in
crates/simtools/src/led/profiles (mod.rs / flag.rs / redline.rs), which is not
present under src/; the fields follow the spec's container table (led_count,
start_position, color, blink_enabled, blink_delay, dual_blink_timing_enabled,
off_delay, on_delay) and agree with the historical FlagContainer that is in
src/. -/
structure SimpleBlinkContainer where
  description : String
  is_enabled : Bool
  led_count : Nat
  start_position : Nat
  color : Color
  blink_enabled : Bool
  blink_delay : Nat
  dual_blink_timing_enabled : Bool
  off_delay : Nat
  on_delay : Nat
  deriving DecidableEq

/-- `FlagColor` (effects/blink.rs). -/
inductive FlagColor where
  | White
  | Yellow
  | Blue
  deriving DecidableEq

/-- `EffectCondition` (effects/blink.rs): which optional telemetry condition
drives the blink effect. -/
inductive EffectCondition where
  | Flag (color : FlagColor)
  | RedLine
  deriving DecidableEq

/-- The flag / redline blink effect (`BlinkEffect` in effects/blink.rs). -/
structure BlinkEffect where
  condition : EffectCondition
  container : SimpleBlinkContainer
  on_leds : LedGroup
  off_leds : LedGroup
  enabled : Bool
  blink_configuration : BlinkConfiguration
  deriving DecidableEq

namespace BlinkEffect

/-- `BlinkEffect::new_helper`: precompute the all-on and all-off snapshots and
set up the blink configuration from the container. -/
def new_helper (condition : EffectCondition) (container : SimpleBlinkContainer)
    (start_position : Nat) : BlinkEffect :=
  let led_count := container.led_count
  let blink_configuration :=
    if container.blink_enabled then
      let timings :=
        if container.dual_blink_timing_enabled then
          BlinkTimings.Double container.on_delay container.off_delay
        else
          BlinkTimings.Single container.blink_delay
      BlinkConfiguration.Enabled .NotBlinking timings
    else
      BlinkConfiguration.Disabled
  { condition
    enabled := false
    on_leds := LedGroup.with_color container.color start_position led_count
    off_leds := LedGroup.new start_position led_count
    container
    blink_configuration }

/-- `BlinkEffect::flag`. -/
def flag (flag_color : FlagColor) (container : SimpleBlinkContainer)
    (start_position : Nat) : BlinkEffect :=
  new_helper (.Flag flag_color) container start_position

/-- `BlinkEffect::redline`. -/
def redline (container : SimpleBlinkContainer) (start_position : Nat) :
    BlinkEffect :=
  new_helper .RedLine container start_position

/-- `BlinkEffect::update` evaluated at instant `now`: no change at all when
the racing-flags getter is unavailable; otherwise read the condition and feed
it to the blink state machine. -/
def update (now : Nat) (state : Moment) (e : BlinkEffect) : BlinkEffect :=
  match state.flags with
  | none => e
  | some flags =>
    let is_enabled :=
      match e.condition with
      | .Flag color =>
        match color with
        | .White => flags.white
        | .Yellow => flags.yellow
        | .Blue => flags.blue
      | .RedLine => state.redline_reached
    { e with
      enabled := is_enabled
      blink_configuration := e.blink_configuration.update now is_enabled }

/-- `BlinkEffect::leds`: which precomputed snapshot is exposed. -/
def ledsOf (e : BlinkEffect) : List LedGroup :=
  match e.blink_configuration with
  | .Disabled => if e.enabled then [e.on_leds] else [e.off_leds]
  | .Enabled state _ =>
    match state with
    | .NotBlinking | .LedsTurnedOff _ => [e.off_leds]
    | .LedsTurnedOn _ => [e.on_leds]

/-- `BlinkEffect::disable`: clear `enabled` and drive the blink state machine
with a `false` signal, which resets it to `NotBlinking` unconditionally
(the instant is irrelevant on that path). -/
def disable (e : BlinkEffect) : BlinkEffect :=
  { e with
    enabled := false
    blink_configuration := e.blink_configuration.update 0 false }

/-- `BlinkEffect::led_count`. -/
def led_count (e : BlinkEffect) : Nat := e.on_leds.leds.length

end BlinkEffect

/-- `StartValue` (profiles/rpm.rs): an RPM segment threshold. -/
inductive StartValue where
  | Rpm (v : ℚ)
  | RpmPercentage (v : ℚ)
  | RedlinePercentage (v : ℚ)
  deriving DecidableEq

/-- A per-segment sub-effect of the RPM segments effect (`LedSegment` in
effects/rpm/segments.rs). -/
structure LedSegment where
  start_value : StartValue
  enabled : Bool
  on_leds : LedGroup
  off_leds : LedGroup
  blink_leds : Option LedGroup
  blink_configuration : BlinkConfiguration
  deriving DecidableEq

namespace LedSegment

/-- `LedSegment::leds` (the `LedEffect` impl in segments.rs). -/
def ledsOf (e : LedSegment) : List LedGroup :=
  if e.enabled then
    match e.blink_configuration with
    | .Enabled state _ =>
      match state with
      | .NotBlinking => [e.on_leds]
      | .LedsTurnedOff _ => [e.off_leds]
      | .LedsTurnedOn _ => [e.blink_leds.getD e.on_leds]
    | .Disabled => [e.on_leds]
  else
    [e.off_leds]

/-- `LedSegment::update` evaluated at instant `now`: no change when the RPM
getter is unavailable; otherwise compare the threshold and drive the blink
state machine with the shared redline condition. -/
def update (now : Nat) (sim_state : Moment) (e : LedSegment) : LedSegment :=
  match sim_state.vehicle_engine_rotation_speed with
  | none => e
  | some rpm =>
    let enabled :=
      match e.start_value with
      | .Rpm start_value => decide (start_value ≤ rpm)
      | .RpmPercentage start_percentage =>
        decide (start_percentage ≤ sim_state.rpm_percentage)
      | .RedlinePercentage start_percentage =>
        let redline_percentage := rpm / sim_state.redline_rpm * 100
        decide (start_percentage ≤ redline_percentage)
    let redline_reached := sim_state.redline_reached
    { e with
      enabled
      blink_configuration := e.blink_configuration.update now redline_reached }

/-- `LedSegment::disable`. -/
def disable (e : LedSegment) : LedSegment :=
  { e with enabled := false, blink_configuration := e.blink_configuration.disable }

/-- `LedSegment` does not override `led_count`, so the trait default applies:
the summed length of the groups its `leds()` iterator yields. -/
def led_count (e : LedSegment) : Nat :=
  (e.ledsOf.map fun g => g.leds.length).sum

end LedSegment

/-- A declared trigger formula (`Formula` in profiles/groups.rs); evaluation
is an explicit non-goal. -/
structure Formula where
  expression : String
  deriving DecidableEq

/-- `SimpleConditionstate` (effects/groups.rs): the three-state timer of the
CarStarted condition. -/
inductive SimpleConditionstate where
  /-- The `Default` state. -/
  | Waiting
  | Triggered (trigger_time : Nat)
  | Expired
  deriving DecidableEq

/-- `GroupCondition` (effects/groups.rs): gates whether a group forwards
updates to its children. -/
inductive GroupCondition where
  | AlwaysOn
  | GameStarted
  | CarStarted (duration : Nat) (state : SimpleConditionstate)
  | Expression (formula : Formula)
  deriving DecidableEq

mutual

/-- A node of the polymorphic effect tree: `EffectGroup` plus the three leaf
kinds implementing the `LedEffect` trait (`BlinkEffect`, `RpmGradientEffect`,
and the per-segment `LedSegment` that the RPM segments effect composes). -/
inductive Effect where
  | group (start_position : Nat) (condition : GroupCondition) (states : EffectList)
  | blink (e : BlinkEffect)
  | rpmGradient (e : RpmGradientEffect)
  | segment (e : LedSegment)
  deriving DecidableEq

/-- The child list of an `EffectGroup` (`Vec<Box<dyn LedEffect>>`). -/
inductive EffectList where
  | nil
  | cons (e : Effect) (es : EffectList)
  deriving DecidableEq

end

namespace EffectList

/-- Convert a child list to a plain Lean list. -/
def toList : EffectList → List Effect
  | .nil => []
  | .cons e es => e :: toList es

end EffectList

mutual

/-- `LedEffect::disable` dispatched over the effect tree; a group recursively
disables every child. -/
def Effect.disable : Effect → Effect
  | .group start_position condition states =>
    .group start_position condition (EffectList.disableAll states)
  | .blink e => .blink e.disable
  | .rpmGradient e => .rpmGradient e.disable
  | .segment e => .segment e.disable

/-- `EffectGroup::disable`'s loop over the children. -/
def EffectList.disableAll : EffectList → EffectList
  | .nil => .nil
  | .cons e es => .cons e.disable (EffectList.disableAll es)

end

mutual

/-- `LedEffect::update` dispatched over the effect tree, evaluated at instant
`now`. A group dispatches on its `GroupCondition` exactly as
`EffectGroup::update` does. -/
def Effect.update (now : Nat) (sim_state : Moment) : Effect → Effect
  | .group start_position condition states =>
    match condition with
    | .AlwaysOn =>
      .group start_position condition (EffectList.updateAll now sim_state states)
    | .GameStarted =>
      .group start_position condition (EffectList.updateAll now sim_state states)
    | .CarStarted duration state =>
      match state with
      | .Waiting =>
        if sim_state.is_engine_running then
          .group start_position (.CarStarted duration (.Triggered now))
            (EffectList.updateAll now sim_state states)
        else
          .group start_position condition states
      | .Triggered trigger_time =>
        if duration ≤ now - trigger_time then
          .group start_position (.CarStarted duration .Expired)
            (EffectList.disableAll states)
        else
          .group start_position condition (EffectList.updateAll now sim_state states)
      | .Expired =>
        if !sim_state.is_engine_running then
          .group start_position (.CarStarted duration .Waiting) states
        else
          .group start_position condition states
    | .Expression _ => .group start_position condition states
  | .blink e => .blink (e.update now sim_state)
  | .rpmGradient e => .rpmGradient (e.update now sim_state)
  | .segment e => .segment (e.update now sim_state)

/-- `EffectGroup::update_states`: forward the update to every child. -/
def EffectList.updateAll (now : Nat) (sim_state : Moment) : EffectList → EffectList
  | .nil => .nil
  | .cons e es => .cons (e.update now sim_state) (EffectList.updateAll now sim_state es)

end

mutual

/-- `LedEffect::leds` dispatched over the effect tree; a group yields the
concatenation, in child order, of every child's groups. -/
def Effect.leds : Effect → List LedGroup
  | .group _ _ states => EffectList.ledsAll states
  | .blink e => e.ledsOf
  | .rpmGradient e => e.ledsOf
  | .segment e => e.ledsOf

/-- The flattened `leds()` of a child list. -/
def EffectList.ledsAll : EffectList → List LedGroup
  | .nil => []
  | .cons e es => e.leds ++ EffectList.ledsAll es

end

mutual

/-- `LedEffect::led_count` dispatched over the effect tree: a group sums its
children's counts (`EffectGroup::led_count`); `BlinkEffect` and
`RpmGradientEffect` override it with their buffer lengths; `LedSegment` uses
the trait default. -/
def Effect.led_count : Effect → Nat
  | .group _ _ states => EffectList.ledCountSum states
  | .blink e => e.led_count
  | .rpmGradient e => e.led_count
  | .segment e => e.led_count

/-- `EffectGroup::led_count`'s sum over the children. -/
def EffectList.ledCountSum : EffectList → Nat
  | .nil => 0
  | .cons e es => e.led_count + EffectList.ledCountSum es

end

/-- `LedEffect::start_led` dispatched over the effect tree. -/
def Effect.start_led : Effect → Nat
  | .group start_position _ _ => start_position
  | .blink e => e.on_leds.start_position
  | .rpmGradient e => e.state.start_position
  | .segment e => e.on_leds.start_position

/-- The children of an effect node: a group's child list, nothing for a
leaf. -/
def Effect.children : Effect → List Effect
  | .group _ _ states => states.toList
  | .blink _ => []
  | .rpmGradient _ => []
  | .segment _ => []

/-- Every LED configuration in a run of LEDs is `Off`. -/
def LedGroup.allOff (g : LedGroup) : Bool :=
  g.leds.all fun led => led = .Off

mutual

/-- Structural well-formedness that every effect built by the effect factory
enjoys: the precomputed "all off" snapshots of blink effects and segments
really hold only `Off` configurations. -/
def Effect.wf : Effect → Bool
  | .group _ _ states => EffectList.wfAll states
  | .blink e => e.off_leds.allOff
  | .rpmGradient _ => true
  | .segment e => e.off_leds.allOff

/-- `Effect.wf` over a child list. -/
def EffectList.wfAll : EffectList → Bool
  | .nil => true
  | .cons e es => e.wf && EffectList.wfAll es

end

/-- `StackingType` (profiles/groups.rs); `Layered` is the `Default`. -/
inductive StackingType where
  | LeftToRight
  | Layered
  deriving DecidableEq

/-- One configured segment of an RPM segments container (`LedSegment` in
profiles/rpm.rs; renamed here to avoid clashing with the runtime
`LedSegment`). -/
structure RpmLedSegment where
  start_value : StartValue
  normal_color : Color
  blinking_color : Option Color
  led_count : Nat
  deriving DecidableEq

/-- `RpmSegmentsContainer` (profiles/rpm.rs). -/
structure RpmSegmentsContainer where
  description : String
  is_enabled : Bool
  start_position : Nat
  blink_enabled : Bool
  blink_delay : Nat
  blink_on_last_gear : Bool
  segments : List RpmLedSegment
  deriving DecidableEq

/-- Modelled from the spec: `SpeedLimiterAnimationContainer`. Its crate
definition (profiles/speed_limiter.rs) is not present under src/; per the
spec it is parsed into the data model but never materialized into an effect,
so only the fields the factory consults are needed. -/
structure SpeedLimiterAnimationContainer where
  description : String
  is_enabled : Bool
  start_position : Nat
  deriving DecidableEq

mutual

/-- `LedContainer` (profiles/mod.rs): the tagged container variants. -/
inductive LedContainer where
  | Rpm (c : RpmContainer)
  | RpmSegments (c : RpmSegmentsContainer)
  | RedlineReached (c : SimpleBlinkContainer)
  | SpeedLimiterAnimation (c : SpeedLimiterAnimationContainer)
  | Group (c : GroupContainer)
  | BlueFlag (c : SimpleBlinkContainer)
  | WhiteFlag (c : SimpleBlinkContainer)
  | YellowFlag (c : SimpleBlinkContainer)
  | Unknown (start_position : Nat) (container_type : String) (content : String)
  deriving DecidableEq

/-- `GroupContainer` (profiles/mod.rs). -/
inductive GroupContainer where
  | Simple (c : SimpleGroupContainer)
  | GameRunning (c : SimpleGroupContainer)
  | CarStarted (c : TimeLimitedGroupContainer)
  | Conditional (c : ConditionalGroupContainer)
  deriving DecidableEq

/-- `SimpleGroupContainer` (profiles/groups.rs). -/
inductive SimpleGroupContainer where
  | mk (description : String) ( is_enabled : Bool) (stacking_type : StackingType)
    (start_position : Nat) (led_containers : LedContainerList)
  deriving DecidableEq

/-- `TimeLimitedGroupContainer` (profiles/groups.rs). -/
inductive TimeLimitedGroupContainer where
  | mk (description : String) ( is_enabled : Bool) (duration : Nat)
    (stacking_type : StackingType) (start_position : Nat)
    (led_containers : LedContainerList)
  deriving DecidableEq

/-- `ConditionalGroupContainer` (profiles/groups.rs). -/
inductive ConditionalGroupContainer where
  | mk (description : String) ( is_enabled : Bool) (stacking_type : StackingType)
    (start_position : Nat) (led_containers : LedContainerList)
    (trigger_formula : Formula)
  deriving DecidableEq

/-- A `Vec<LedContainer>`. -/
inductive LedContainerList where
  | nil
  | cons (c : LedContainer) (cs : LedContainerList)
  deriving DecidableEq

end

namespace SimpleGroupContainer

/-- Field accessor. -/
def is_enabled : SimpleGroupContainer → Bool
  | .mk _ e _ _ _ => e

/-- Field accessor. -/
def stacking_type : SimpleGroupContainer → StackingType
  | .mk _ _ st _ _ => st

/-- Field accessor. -/
def start_position : SimpleGroupContainer → Nat
  | .mk _ _ _ sp _ => sp

/-- Field accessor. -/
def led_containers : SimpleGroupContainer → LedContainerList
  | .mk _ _ _ _ cs => cs

end SimpleGroupContainer

namespace TimeLimitedGroupContainer

/-- Field accessor. -/
def is_enabled : TimeLimitedGroupContainer → Bool
  | .mk _ e _ _ _ _ => e

/-- Field accessor. -/
def duration : TimeLimitedGroupContainer → Nat
  | .mk _ _ d _ _ _ => d

/-- Field accessor. -/
def stacking_type : TimeLimitedGroupContainer → StackingType
  | .mk _ _ _ st _ _ => st

/-- Field accessor. -/
def start_position : TimeLimitedGroupContainer → Nat
  | .mk _ _ _ _ sp _ => sp

/-- Field accessor. -/
def led_containers : TimeLimitedGroupContainer → LedContainerList
  | .mk _ _ _ _ _ cs => cs

end TimeLimitedGroupContainer

namespace ConditionalGroupContainer

/-- Field accessor. -/
def is_enabled : ConditionalGroupContainer → Bool
  | .mk _ e _ _ _ _ => e

/-- Field accessor. -/
def stacking_type : ConditionalGroupContainer → StackingType
  | .mk _ _ st _ _ _ => st

/-- Field accessor. -/
def start_position : ConditionalGroupContainer → Nat
  | .mk _ _ _ sp _ _ => sp

/-- Field accessor. -/
def led_containers : ConditionalGroupContainer → LedContainerList
  | .mk _ _ _ _ cs _ => cs

/-- Field accessor. -/
def trigger_formula : ConditionalGroupContainer → Formula
  | .mk _ _ _ _ _ f => f

end ConditionalGroupContainer

namespace GroupContainer

/-- `GroupContainer::start_position` (profiles/mod.rs). -/
def start_position : GroupContainer → Nat
  | .Simple c => c.start_position
  | .GameRunning c => c.start_position
  | .CarStarted c => c.start_position
  | .Conditional c => c.start_position

/-- Modelled from the spec: the enabled flag of a group container, consulted
by the factory's enabled-filter (the crate's `LedContainer::enabled` accessor
in profiles/mod.rs is not present under src/); it reads the container's own
`is_enabled` field. -/
def is_enabled : GroupContainer → Bool
  | .Simple c => c.is_enabled
  | .GameRunning c => c.is_enabled
  | .CarStarted c => c.is_enabled
  | .Conditional c => c.is_enabled

end GroupContainer

namespace LedContainer

/-- `LedContainer::start_position` (profiles/mod.rs). -/
def start_position : LedContainer → Nat
  | .Rpm c => c.start_position
  | .RpmSegments c => c.start_position
  | .RedlineReached c => c.start_position
  | .SpeedLimiterAnimation c => c.start_position
  | .Group c => c.start_position
  | .BlueFlag c => c.start_position
  | .WhiteFlag c => c.start_position
  | .YellowFlag c => c.start_position
  | .Unknown sp _ _ => sp

/-- Modelled from the spec: `LedContainer::enabled`, the flag the factory's
"skipping any container whose enabled flag is false" filter reads (the crate
accessor in profiles/mod.rs is not present under src/); it reads each
variant's own `is_enabled` field, and an `Unknown` leaf — which never builds
an effect anyway — is treated as enabled. -/
def enabled : LedContainer → Bool
  | .Rpm c => c.is_enabled
  | .RpmSegments c => c.is_enabled
  | .RedlineReached c => c.is_enabled
  | .SpeedLimiterAnimation c => c.is_enabled
  | .Group c => c.is_enabled
  | .BlueFlag c => c.is_enabled
  | .WhiteFlag c => c.is_enabled
  | .YellowFlag c => c.is_enabled
  | .Unknown _ _ _ => true

/-- Whether the container is a nested group container. -/
def isGroup : LedContainer → Bool
  | .Group _ => true
  | _ => false

end LedContainer

/-- `From<&GroupContainer> for GroupCondition` (effects/groups.rs). -/
def GroupCondition.fromContainer : GroupContainer → GroupCondition
  | .Simple _ => .AlwaysOn
  | .GameRunning _ => .GameStarted
  | .CarStarted c => .CarStarted c.duration .Waiting
  | .Conditional c => .Expression c.trigger_formula

/-- `RpmSegmentsEffect::with_start_position`'s per-segment loop body
(effects/rpm/segments.rs): build one runtime segment at `segment_position`. -/
def buildLedSegment (container : RpmSegmentsContainer) (segment : RpmLedSegment)
    (segment_position : Nat) : LedSegment :=
  let blink_configuration :=
    if container.blink_enabled then
      BlinkConfiguration.Enabled .NotBlinking (.Single container.blink_delay)
    else
      BlinkConfiguration.Disabled
  { start_value := segment.start_value
    enabled := false
    on_leds := LedGroup.with_color segment.normal_color segment_position segment.led_count
    off_leds := LedGroup.new segment_position segment.led_count
    blink_leds := segment.blinking_color.map fun color =>
      LedGroup.with_color color segment_position segment.led_count
    blink_configuration }

/-- The segment-building loop of `RpmSegmentsEffect::with_start_position`:
each segment is placed at the running position, which then advances by the
segment's LED count with saturating addition. -/
def buildLedSegments (container : RpmSegmentsContainer)
    (segments : List RpmLedSegment) (segment_position : Nat) : EffectList :=
  match segments with
  | [] => .nil
  | segment :: rest =>
    .cons (.segment (buildLedSegment container segment segment_position))
      (buildLedSegments container rest (satAdd segment_position segment.led_count))

/-- `RpmSegmentsEffect::with_start_position` (effects/rpm/segments.rs): an
always-on group of per-segment sub-effects. -/
def RpmSegmentsEffect.with_start_position (container : RpmSegmentsContainer)
    (start_position : Nat) : Effect :=
  .group start_position .AlwaysOn
    (buildLedSegments container container.segments start_position)

mutual

/-- `EffectGroup::create_led_effect` (effects/groups.rs): which containers
materialize into effect nodes, and at which start position. A nested `Group`
container is built by `EffectGroup::new`, which ignores the passed
`start_position` and uses the group's own declared start. `RpmSegments`,
`SpeedLimiterAnimation` and `Unknown` produce no node. -/
def create_led_effect (container : LedContainer) (start_position : Nat) :
    Option Effect :=
  match container with
  | .Rpm c => some (.rpmGradient (RpmGradientEffect.with_start_position c start_position))
  | .RpmSegments _ => none
  | .SpeedLimiterAnimation _ => none
  | .Group c => some (EffectGroup.new c)
  | .BlueFlag c => some (.blink (BlinkEffect.flag .Blue c start_position))
  | .WhiteFlag c => some (.blink (BlinkEffect.flag .White c start_position))
  | .YellowFlag c => some (.blink (BlinkEffect.flag .Yellow c start_position))
  | .RedlineReached c => some (.blink (BlinkEffect.redline c start_position))
  | .Unknown _ _ _ => none
termination_by sizeOf container

/-- `EffectGroup::new` (effects/groups.rs): compute the `GroupCondition` from
the container (`GroupCondition::from`, inlined per variant), destructure the
shared fields, and hand off to `new_helper`. -/
def EffectGroup.new (container : GroupContainer) : Effect :=
  match container with
  | .Simple (.mk _ _ stacking_type start_position led_containers) =>
    new_helper .AlwaysOn start_position stacking_type led_containers
  | .GameRunning (.mk _ _ stacking_type start_position led_containers) =>
    new_helper .GameStarted start_position stacking_type led_containers
  | .CarStarted (.mk _ _ duration stacking_type start_position led_containers) =>
    new_helper (.CarStarted duration .Waiting) start_position stacking_type
      led_containers
  | .Conditional (.mk _ _ stacking_type start_position led_containers trigger_formula) =>
    new_helper (.Expression trigger_formula) start_position stacking_type
      led_containers
termination_by sizeOf container

/-- `EffectGroup::new_helper` (effects/groups.rs): run the layout loop and
store the loop's final cursor value as the resulting group's
`start_position`, exactly as the source binds the mutated local into the
struct. -/
def new_helper (condition : GroupCondition) (group_start_position : Nat)
    (stacking_type : StackingType) (containers : LedContainerList) : Effect :=
  let r := new_helper_loop group_start_position stacking_type containers
    group_start_position
  .group r.2 condition r.1
termination_by sizeOf containers + 1

/-- The body of `EffectGroup::new_helper`'s `for` loop, with the mutable
`start_position` local threaded through as `cursor`:
a container whose enabled flag is false is skipped, leaving the cursor
untouched; under `Layered` stacking the cursor is set to
`group_start ⊕ (declared start − 1)` (saturating) before building; a
container that builds no node leaves the cursor at that value; under
`LeftToRight` stacking the cursor advances by the built node's `led_count()`
(saturating) after the node is built. -/
def new_helper_loop (group_start_position : Nat) (stacking_type : StackingType)
    (containers : LedContainerList) (cursor : Nat) : EffectList × Nat :=
  match containers with
  | .nil => (.nil, cursor)
  | .cons c cs =>
    if !c.enabled then
      new_helper_loop group_start_position stacking_type cs cursor
    else
      let pos :=
        if stacking_type = .Layered then
          satAdd group_start_position (c.start_position - 1)
        else cursor
      match create_led_effect c pos with
      | none => new_helper_loop group_start_position stacking_type cs pos
      | some state =>
        let cursor' :=
          if stacking_type = .LeftToRight then satAdd pos state.led_count else pos
        let r := new_helper_loop group_start_position stacking_type cs cursor'
        (.cons state r.1, r.2)
termination_by sizeOf containers

end

/-!
The custom `Deserialize` impl for `LedContainer` (src/led/profiles/mod.rs):
the raw JSON object is first probed for its `ContainerType` discriminator and
(optionally defaulted) `StartPosition`; dispatch then happens on the final
dot-separated segment of the discriminator. The per-variant typed parsers
(`from_str::<T>`) are external serde derivations, abstracted here as a record
of fallible sub-parsers from the raw payload.
-/

/-- Character-level scan computing the text after the last dot: on reading a
dot the accumulated segment is discarded, otherwise the character joins it. -/
def finalSegmentAux : List Char → List Char → List Char
  | [], acc => acc.reverse
  | c :: rest, acc =>
    if c = '.' then finalSegmentAux rest []
    else finalSegmentAux rest (c :: acc)

/-- The final dot-separated segment of a discriminator string
(`container_type.split('.').last()`; `split` always yields at least one
segment — the text after the last separator, the whole string when there is
no dot — so the source's error branch for a missing last segment is dead). -/
def finalSegment (container_type : String) : String :=
  String.mk (finalSegmentAux container_type.data [])

/-- The discriminator tags the deserializer recognizes, in source order. -/
def recognizedContainerTypes : List String :=
  ["RPMContainer", "RPMSegmentsContainer", "RedlineReachedContainer",
   "SpeedLimiterAnimationContainer", "YellowFlagContainer",
   "BlueFlagContainer", "WhiteFlagContainer", "GroupContainer",
   "GameRunningGroupContainer", "GameCarStatedGroupContainer",
   "CustomConditionalGroupContainer"]

/-- The outcome of deserializing one container object: a strongly-typed
variant (payload abstracted as the sub-parser's output) or the opaque
`Unknown` leaf. -/
inductive DeserializedLedContainer where
  | Rpm (c : String)
  | RpmSegments (c : String)
  | RedlineReached (c : String)
  | SpeedLimiterAnimation (c : String)
  | YellowFlag (c : String)
  | BlueFlag (c : String)
  | WhiteFlag (c : String)
  | GroupSimple (c : String)
  | GroupGameRunning (c : String)
  | GroupCarStarted (c : String)
  | GroupConditional (c : String)
  | Unknown (start_position : Nat) (container_type : String) (content : String)
  deriving DecidableEq

/-- The typed per-variant parsers (`from_str::<T>` instantiations) the
dispatcher delegates to; each may fail, and its parsed value is abstracted. -/
structure SubParsers where
  rpm : String → Except String String
  rpmSegments : String → Except String String
  redlineReached : String → Except String String
  speedLimiterAnimation : String → Except String String
  yellowFlag : String → Except String String
  blueFlag : String → Except String String
  whiteFlag : String → Except String String
  groupSimple : String → Except String String
  groupGameRunning : String → Except String String
  groupCarStarted : String → Except String String
  groupConditional : String → Except String String

/-- `impl Deserialize for LedContainer` (src/led/profiles/mod.rs), after the
helper probe has produced the discriminator string, the (defaulted) start
position and the raw payload: dispatch on the final dot-segment; every
unrecognized tag succeeds as an `Unknown` leaf keeping the start position and
the opaque payload. `"GameCarStatedGroupContainer"` intentionally preserves
the upstream typo. -/
def deserializeLedContainer (sub : SubParsers) (container_type : String)
    (start_position : Nat) (content : String) :
    Except String DeserializedLedContainer :=
  let t := finalSegment container_type
  match t with
  | "RPMContainer" => (sub.rpm content).map .Rpm
  | "RPMSegmentsContainer" => (sub.rpmSegments content).map .RpmSegments
  | "RedlineReachedContainer" => (sub.redlineReached content).map .RedlineReached
  | "SpeedLimiterAnimationContainer" =>
    (sub.speedLimiterAnimation content).map .SpeedLimiterAnimation
  | "YellowFlagContainer" => (sub.yellowFlag content).map .YellowFlag
  | "BlueFlagContainer" => (sub.blueFlag content).map .BlueFlag
  | "WhiteFlagContainer" => (sub.whiteFlag content).map .WhiteFlag
  | "GroupContainer" => (sub.groupSimple content).map .GroupSimple
  | "GameRunningGroupContainer" =>
    (sub.groupGameRunning content).map .GroupGameRunning
  | "GameCarStatedGroupContainer" =>
    (sub.groupCarStarted content).map .GroupCarStarted
  | "CustomConditionalGroupContainer" =>
    (sub.groupConditional content).map .GroupConditional
  | t => .ok (.Unknown start_position t content)

/-- `RpmMode` (crates/simtools/src/led/profiles/rpm.rs). -/
inductive RpmMode where
  | Rpm
  | RpmPercentage
  | RedlinePercentage
  deriving DecidableEq

/-- `impl Deserialize for RpmMode` (crates/simtools/src/led/profiles/rpm.rs)
after the numeric value has been decoded as a `u8`: code 0 is percentage
mode, 1 is redline-percentage mode, 2 is absolute-RPM mode, and anything else
is the error `"Invalid RPM mode {n}"`. -/
def RpmMode.deserialize (number : Nat) : Except String RpmMode :=
  match number with
  | 0 => .ok .RpmPercentage
  | 1 => .ok .RedlinePercentage
  | 2 => .ok .Rpm
  | n => .error ("Invalid RPM mode " ++ toString n)

/-- Apply a sequence of update calls (each an instant paired with a moment)
to an effect, in order. -/
def Effect.applyUpdates (updates : List (Nat × Moment)) (e : Effect) : Effect :=
  updates.foldl (fun acc p => acc.update p.1 p.2) e

/-- An effect node that is a group. -/
def Effect.IsGroup (e : Effect) : Prop :=
  ∃ sp cond states, e = .group sp cond states

/-- Every LED the effect exposes through `leds()` is `Off`. -/
def Effect.allLedsOff (e : Effect) : Bool :=
  e.leds.all fun g => g.allOff

/-- The spec's description of `Layered` stacking: every surviving child is
built at the parent's absolute start plus (its declared relative start − 1),
with saturating addition. -/
def layeredSpecStates (group_start_position : Nat) :
    LedContainerList → EffectList
  | .nil => .nil
  | .cons c cs =>
    if c.enabled then
      match create_led_effect c
        (satAdd group_start_position (c.start_position - 1)) with
      | some e => .cons e (layeredSpecStates group_start_position cs)
      | none => layeredSpecStates group_start_position cs
    else
      layeredSpecStates group_start_position cs

/-- The spec's description of `LeftToRight` stacking: a running cursor begins
at the parent's absolute start; every surviving child is built at the cursor,
which advances by the built child's `led_count()` (saturating) after that
child is built; a skipped container, or one that produces no effect node,
does not advance the cursor. -/
def ltrSpecStates (cursor : Nat) : LedContainerList → EffectList
  | .nil => .nil
  | .cons c cs =>
    if c.enabled then
      match create_led_effect c cursor with
      | some e => .cons e (ltrSpecStates (satAdd cursor e.led_count) cs)
      | none => ltrSpecStates cursor cs
    else
      ltrSpecStates cursor cs

/-- `LedConfiguration::is_on`-style check: whether the LED is turned on. -/
def LedConfiguration.isOn : LedConfiguration → Bool
  | .On _ => true
  | .Off => false

/-- The number of LEDs of a run that are turned on. -/
def LedGroup.onCount (g : LedGroup) : Nat :=
  g.leds.countP LedConfiguration.isOn

/-- The RPM gradient container of the spec's percentage-mode scenario:
`percent_min = 85`, `percent_max = 95`, `led_count = 5`, percentage mode,
blinking disabled, left-to-right, no gradient-on-all or fill-all. -/
def scenarioRpmContainer (start_color end_color : Color) : RpmContainer :=
  { description := "", is_enabled := true, start_position := 1,
    led_count := 5, use_percent := true, percent_min := 85, percent_max := 95,
    rpm_min := 1000, rpm_max := 8000, start_color, end_color,
    right_to_left := false, blink_enabled := false, blink_delay := 200,
    blink_on_last_gear := false, gradient_on_all := false,
    fill_all_leds := false }

/-- A telemetry moment of the scenario: the given RPM with a simulator
maximum RPM of 9000. -/
def scenarioRpmMoment (rpm : ℚ) : Moment :=
  { flags := none, vehicle_engine_rotation_speed := some rpm,
    vehicle_max_engine_rotation_speed := some 9000, vehicle_gear := none,
    is_starter_on := none, rpm_percentage := 0, redline_rpm := 0 }

/-- One update of the scenario: the RPM is the given percentage of the
9000-RPM maximum. -/
def scenarioStep (now : Nat) (percent : ℚ) (e : RpmGradientEffect) :
    RpmGradientEffect :=
  e.update now (scenarioRpmMoment (9000 * percent / 100))

/-- The scenario effect after the update at 85% of the maximum RPM. -/
def scenarioE1 (start_color end_color : Color) : RpmGradientEffect :=
  scenarioStep 0 85
    (RpmGradientEffect.with_start_position
      (scenarioRpmContainer start_color end_color) 1)

/-- The scenario effect after the further update at 87%. -/
def scenarioE2 (start_color end_color : Color) : RpmGradientEffect :=
  scenarioStep 1 87 (scenarioE1 start_color end_color)

/-- The scenario effect after the further update at 90%. -/
def scenarioE3 (start_color end_color : Color) : RpmGradientEffect :=
  scenarioStep 2 90 (scenarioE2 start_color end_color)

/-- The scenario effect after the further update at 95%. -/
def scenarioE4 (start_color end_color : Color) : RpmGradientEffect :=
  scenarioStep 3 95 (scenarioE3 start_color end_color)

/-- The scenario effect after the final update back down at 10%. -/
def scenarioE5 (start_color end_color : Color) : RpmGradientEffect :=
  scenarioStep 4 10 (scenarioE4 start_color end_color)

/-!
Theorems. Each claim of the specification is settled against the embedded
definitions above.
-/

/-- C1 (counterexample to the claim as stated): with blinking enabled, single
timing 50, state `LedsTurnedOn{since := 0}` and the active signal true, an
update at instant 50 — where `now − since ≥ on_delay` holds — leaves the
state unchanged instead of switching to `LedsTurnedOff{50}`: the source
compares the elapsed on-time with strict `>`, not `≥`. -/
theorem blink_update_on_boundary_stays_on :
    (BlinkTimings.Single 50).on_timeout ≤ 50 - 0
    ∧ BlinkConfiguration.update 50 true
        (.Enabled (.LedsTurnedOn 0) (.Single 50)) ≠
        .Enabled (.LedsTurnedOff 50) (.Single 50)
    ∧ BlinkConfiguration.update 50 true
        (.Enabled (.LedsTurnedOn 0) (.Single 50)) =
        .Enabled (.LedsTurnedOn 0) (.Single 50) := by
  refine ⟨by decide, by decide, by decide⟩

/-- C1 (amended): for the shared blink state machine with blinking enabled,
an update at instant `now` behaves as follows. If the active signal is false
the state becomes `NotBlinking` unconditionally. If it is true, then from
`NotBlinking` the state becomes `LedsTurnedOn{now}`; from
`LedsTurnedOn{since}` it becomes `LedsTurnedOff{now}` exactly when
`now − since` strictly exceeds `on_delay` (not on reaching it) and is
otherwise unchanged; and from `LedsTurnedOff{since}` it becomes
`LedsTurnedOn{now}` exactly when `now − since ≥ off_delay` and is otherwise
unchanged. -/
theorem blink_update_transition_table (now : Nat) (timings : BlinkTimings) :
    (∀ state, BlinkConfiguration.update now false (.Enabled state timings) =
      .Enabled .NotBlinking timings)
    ∧ (BlinkConfiguration.update now true (.Enabled .NotBlinking timings) =
      .Enabled (.LedsTurnedOn now) timings)
    ∧ (∀ since, timings.on_timeout < now - since →
      BlinkConfiguration.update now true (.Enabled (.LedsTurnedOn since) timings) =
        .Enabled (.LedsTurnedOff now) timings)
    ∧ (∀ since, now - since ≤ timings.on_timeout →
      BlinkConfiguration.update now true (.Enabled (.LedsTurnedOn since) timings) =
        .Enabled (.LedsTurnedOn since) timings)
    ∧ (∀ since, timings.off_timeout ≤ now - since →
      BlinkConfiguration.update now true (.Enabled (.LedsTurnedOff since) timings) =
        .Enabled (.LedsTurnedOn now) timings)
    ∧ (∀ since, now - since < timings.off_timeout →
      BlinkConfiguration.update now true (.Enabled (.LedsTurnedOff since) timings) =
        .Enabled (.LedsTurnedOff since) timings) := by
  refine ⟨fun state => rfl, rfl, fun since h => ?_, fun since h => ?_,
    fun since h => ?_, fun since h => ?_⟩
  · simp [BlinkConfiguration.update, h]
  · simp [BlinkConfiguration.update, Nat.not_lt.mpr h]
  · simp [BlinkConfiguration.update, h]
  · simp [BlinkConfiguration.update, Nat.not_le.mpr h]

/-- C1 witness: the amended transition table applied at `now = 51`,
`since = 0`, single timing 50, with the strict-elapsed hypothesis discharged
concretely. -/
theorem blink_update_transition_table_witness :
    BlinkConfiguration.update 51 true (.Enabled (.LedsTurnedOn 0) (.Single 50)) =
      .Enabled (.LedsTurnedOff 51) (.Single 50) :=
  (blink_update_transition_table 51 (.Single 50)).2.2.1 0 (by decide)

/-- C8: deserializing the `rpm_mode` numeric code (a `u8`) maps 0 to
RPM-percentage mode, 1 to redline-percentage mode and 2 to absolute-RPM mode,
and every other value fails with an error naming the invalid mode. -/
theorem rpmMode_deserialize_spec :
    RpmMode.deserialize 0 = .ok .RpmPercentage
    ∧ RpmMode.deserialize 1 = .ok .RedlinePercentage
    ∧ RpmMode.deserialize 2 = .ok .Rpm
    ∧ ∀ n : Nat, n < 256 → n ≠ 0 → n ≠ 1 → n ≠ 2 →
      RpmMode.deserialize n = .error ("Invalid RPM mode " ++ toString n) := by
  refine ⟨rfl, rfl, rfl, fun n _ h0 h1 h2 => ?_⟩
  match n, h0, h1, h2 with
  | m + 3, _, _, _ => rfl

/-- C8 witness: code 7 is rejected with the error naming it. -/
theorem rpmMode_deserialize_spec_witness :
    RpmMode.deserialize 7 = .error ("Invalid RPM mode " ++ toString 7) :=
  rpmMode_deserialize_spec.2.2.2 7 (by decide) (by decide) (by decide) (by decide)

/-- C10: the engine-running helper returns true exactly when the
starter-motor getter reports an available value equal to `false` and the
engine-rotation-speed getter reports an available value strictly greater than
zero; in particular it is false whenever the starter flag is unavailable, so
a CarStarted group in `Waiting` does not change on such telemetry. -/
theorem is_engine_running_spec :
    (∀ m : Moment, m.is_engine_running = true ↔
      (m.is_starter_on = some false ∧
        ∃ rpm, m.vehicle_engine_rotation_speed = some rpm ∧ 0 < rpm))
    ∧ ∀ (now : Nat) (m : Moment) (sp duration : Nat) (states : EffectList),
      m.is_starter_on = none →
      Effect.update now m (.group sp (.CarStarted duration .Waiting) states) =
        .group sp (.CarStarted duration .Waiting) states := by
  constructor
  · intro m
    unfold Moment.is_engine_running
    rcases hs : m.is_starter_on with _ | starter
    · simp
    · rcases hr : m.vehicle_engine_rotation_speed with _ | rpm
      · simp
      · cases starter <;> simp
  · intro now m sp duration states h
    have hrun : m.is_engine_running = false := by
      unfold Moment.is_engine_running
      rw [h]
    simp [Effect.update, hrun]

/-- C4: the CarStarted group condition is a three-state timer. In `Waiting`,
if the moment reports the engine running the state becomes
`Triggered{since := now}` and this tick's update is forwarded to the
children, otherwise nothing happens. In `Triggered{since}`, if
`now − since ≥ duration` the state becomes `Expired` and `disable()` is
called on all children, otherwise the update is forwarded. In `Expired`, the
state returns to `Waiting` exactly when the moment reports the engine no
longer running, and no child updates are performed. -/
theorem carStarted_group_update_spec (now : Nat) (m : Moment)
    (sp duration : Nat) (states : EffectList) :
    (m.is_engine_running = true →
      Effect.update now m (.group sp (.CarStarted duration .Waiting) states) =
        .group sp (.CarStarted duration (.Triggered now))
          (EffectList.updateAll now m states))
    ∧ (m.is_engine_running = false →
      Effect.update now m (.group sp (.CarStarted duration .Waiting) states) =
        .group sp (.CarStarted duration .Waiting) states)
    ∧ (∀ since, duration ≤ now - since →
      Effect.update now m (.group sp (.CarStarted duration (.Triggered since)) states) =
        .group sp (.CarStarted duration .Expired) (EffectList.disableAll states))
    ∧ (∀ since, now - since < duration →
      Effect.update now m (.group sp (.CarStarted duration (.Triggered since)) states) =
        .group sp (.CarStarted duration (.Triggered since))
          (EffectList.updateAll now m states))
    ∧ (m.is_engine_running = false →
      Effect.update now m (.group sp (.CarStarted duration .Expired) states) =
        .group sp (.CarStarted duration .Waiting) states)
    ∧ (m.is_engine_running = true →
      Effect.update now m (.group sp (.CarStarted duration .Expired) states) =
        .group sp (.CarStarted duration .Expired) states) := by
  refine ⟨fun h => ?_, fun h => ?_, fun since h => ?_, fun since h => ?_,
    fun h => ?_, fun h => ?_⟩
  · simp [Effect.update, h]
  · simp [Effect.update, h]
  · simp [Effect.update, h]
  · simp [Effect.update, Nat.not_le.mpr h]
  · simp [Effect.update, h]
  · simp [Effect.update, h]

/-- C4 witness: the transition table applied concretely — a Triggered
condition whose duration has elapsed expires and disables its (empty) child
list. -/
theorem carStarted_group_update_spec_witness :
    Effect.update 10
      { flags := none, vehicle_engine_rotation_speed := none,
        vehicle_max_engine_rotation_speed := none, vehicle_gear := none,
        is_starter_on := none, rpm_percentage := 0, redline_rpm := 0 }
      (.group 1 (.CarStarted 5 (.Triggered 2)) .nil) =
      .group 1 (.CarStarted 5 .Expired) (EffectList.disableAll .nil) :=
  (carStarted_group_update_spec 10 _ 1 5 .nil).2.2.1 2 (by decide)

/-- C5: whenever the telemetry value an effect reads is reported unavailable
in a moment — the racing-flags getter for the flag/redline blink effect, the
RPM or max-RPM getter for the RPM gradient effect — `update` makes no change
that tick: the whole effect record, hence its blink state and every LED it
exposes through `leds()`, is exactly as before the call. -/
theorem effects_freeze_on_missing_telemetry :
    (∀ (now : Nat) (m : Moment) (e : BlinkEffect), m.flags = none →
      e.update now m = e ∧ (e.update now m).ledsOf = e.ledsOf)
    ∧ ∀ (now : Nat) (m : Moment) (e : RpmGradientEffect),
      m.vehicle_engine_rotation_speed = none ∨
        m.vehicle_max_engine_rotation_speed = none →
      e.update now m = e ∧ (e.update now m).ledsOf = e.ledsOf := by
  constructor
  · intro now m e h
    have : e.update now m = e := by
      unfold BlinkEffect.update
      rw [h]
    exact ⟨this, by rw [this]⟩
  · intro now m e h
    have : e.update now m = e := by
      unfold RpmGradientEffect.update
      rcases h with h | h
      · rw [h]
      · rcases hr : m.vehicle_engine_rotation_speed with _ | rpm
        · rfl
        · rw [h]
    exact ⟨this, by rw [this]⟩

/-- C5 witness: a moment with no flags freezes a concrete blink effect, and a
moment with no max-RPM freezes a concrete RPM gradient effect. -/
theorem effects_freeze_on_missing_telemetry_witness :
    (BlinkEffect.update 7
      { flags := none, vehicle_engine_rotation_speed := some 100,
        vehicle_max_engine_rotation_speed := some 9000, vehicle_gear := none,
        is_starter_on := none, rpm_percentage := 0, redline_rpm := 0 }
      (BlinkEffect.flag .Yellow
        { description := "", is_enabled := true, led_count := 3,
          start_position := 14, color := ⟨1, 1, 0, 1⟩, blink_enabled := true,
          blink_delay := 50, dual_blink_timing_enabled := false,
          off_delay := 75, on_delay := 12 } 14) =
      BlinkEffect.flag .Yellow
        { description := "", is_enabled := true, led_count := 3,
          start_position := 14, color := ⟨1, 1, 0, 1⟩, blink_enabled := true,
          blink_delay := 50, dual_blink_timing_enabled := false,
          off_delay := 75, on_delay := 12 } 14)
    ∧ RpmGradientEffect.update 7
      { flags := some ⟨false, false, false⟩,
        vehicle_engine_rotation_speed := some 100,
        vehicle_max_engine_rotation_speed := none, vehicle_gear := none,
        is_starter_on := none, rpm_percentage := 0, redline_rpm := 0 }
      (RpmGradientEffect.with_start_position
        { description := "", is_enabled := true, start_position := 1,
          led_count := 5, use_percent := true, percent_min := 85,
          percent_max := 95, rpm_min := 1000, rpm_max := 8000,
          start_color := ⟨0, 1, 0, 1⟩, end_color := ⟨1, 0, 0, 1⟩,
          right_to_left := false, blink_enabled := false, blink_delay := 200,
          blink_on_last_gear := false, gradient_on_all := false,
          fill_all_leds := false } 1) =
      RpmGradientEffect.with_start_position
        { description := "", is_enabled := true, start_position := 1,
          led_count := 5, use_percent := true, percent_min := 85,
          percent_max := 95, rpm_min := 1000, rpm_max := 8000,
          start_color := ⟨0, 1, 0, 1⟩, end_color := ⟨1, 0, 0, 1⟩,
          right_to_left := false, blink_enabled := false, blink_delay := 200,
          blink_on_last_gear := false, gradient_on_all := false,
          fill_all_leds := false } 1 :=
  ⟨(effects_freeze_on_missing_telemetry.1 7 _ _ rfl).1,
    (effects_freeze_on_missing_telemetry.2 7 _ _ (Or.inr rfl)).1⟩

/-- C7: deserializing a container object dispatches on the final
dot-separated segment of its `container_type` discriminator — a legacy
namespaced discriminator behaves exactly like its bare final segment — and
for every object whose final-segment discriminator is not one of the
recognized tags, parsing succeeds and yields an `Unknown` leaf retaining the
object's start position and opaque payload rather than failing. -/
theorem ledContainer_deserialize_spec :
    (∀ (sub : SubParsers) (sp : Nat) (content tag : String),
      tag ∈ recognizedContainerTypes →
      deserializeLedContainer sub ("SimHub.Plugins." ++ tag) sp content =
        deserializeLedContainer sub tag sp content)
    ∧ ∀ (sub : SubParsers) (container_type : String) (sp : Nat) (content : String),
      finalSegment container_type ∉ recognizedContainerTypes →
      deserializeLedContainer sub container_type sp content =
        .ok (.Unknown sp (finalSegment container_type) content) := by
  constructor
  · intro sub sp content tag htag
    fin_cases htag <;> rfl
  · intro sub container_type sp content h
    simp only [recognizedContainerTypes, List.mem_cons, List.not_mem_nil,
      or_false, not_or] at h
    obtain ⟨h1, h2, h3, h4, h5, h6, h7, h8, h9, h10, h11⟩ := h
    simp only [deserializeLedContainer]

/-- C7 witness: a namespaced recognized tag dispatches like its bare tag, and
an unrecognized discriminator yields the `Unknown` leaf with its start
position and payload. -/
theorem ledContainer_deserialize_spec_witness :
    deserializeLedContainer
        ⟨.ok, .ok, .ok, .ok, .ok, .ok, .ok, .ok, .ok, .ok, .ok⟩
        "SimHub.Plugins.RPMContainer" 4 "payload" =
      deserializeLedContainer
        ⟨.ok, .ok, .ok, .ok, .ok, .ok, .ok, .ok, .ok, .ok, .ok⟩
        "RPMContainer" 4 "payload"
    ∧ deserializeLedContainer
        ⟨.ok, .ok, .ok, .ok, .ok, .ok, .ok, .ok, .ok, .ok, .ok⟩
        "Custom.FancyContainer" 4 "payload" =
      .ok (.Unknown 4 (finalSegment "Custom.FancyContainer") "payload") :=
  ⟨ledContainer_deserialize_spec.1 _ 4 "payload" "RPMContainer" (by decide),
    ledContainer_deserialize_spec.2 _ "Custom.FancyContainer" 4 "payload" (by decide)⟩

/-- `EffectGroup::update` always returns a group: every branch of the
condition dispatch rebuilds a `group` node. -/
theorem Effect.update_group_shape (now : Nat) (m : Moment) (sp : Nat)
    (cond : GroupCondition) (states : EffectList) :
    (Effect.update now m (.group sp cond states)).IsGroup := by
  cases cond with
  | AlwaysOn => exact ⟨_, _, _, rfl⟩
  | GameStarted => exact ⟨_, _, _, rfl⟩
  | CarStarted duration st =>
    cases st <;> simp only [Effect.update] <;> split <;> exact ⟨_, _, _, rfl⟩
  | Expression f => exact ⟨_, _, _, rfl⟩

/-- The summed child counts agree with mapping `led_count` over the child
list. -/
theorem EffectList.ledCountSum_eq_sum_toList (states : EffectList) :
    EffectList.ledCountSum states = (states.toList.map Effect.led_count).sum := by
  match states with
  | .nil => rfl
  | .cons e es =>
    have ih := EffectList.ledCountSum_eq_sum_toList es
    simp [EffectList.ledCountSum, EffectList.toList, ih]

/-- C9: for every Group effect, over arbitrarily nested effect trees and
after any sequence of update calls, `led_count()` equals the sum of its
children's `led_count()`. -/
theorem group_led_count_eq_sum_children (updates : List (Nat × Moment))
    (sp : Nat) (cond : GroupCondition) (states : EffectList) :
    (Effect.applyUpdates updates (.group sp cond states)).led_count =
      ((Effect.applyUpdates updates (.group sp cond states)).children.map
        Effect.led_count).sum := by
  have hshape : ∀ (us : List (Nat × Moment)) (e : Effect), e.IsGroup →
      (Effect.applyUpdates us e).IsGroup := by
    intro us
    induction us with
    | nil => intro e h; exact h
    | cons p ps ih =>
      intro e h
      obtain ⟨sp', cond', states', rfl⟩ := h
      exact ih _ (Effect.update_group_shape p.1 p.2 sp' cond' states')
  obtain ⟨sp', cond', states', heq⟩ :=
    hshape updates (.group sp cond states) ⟨sp, cond, states, rfl⟩
  rw [heq]
  simpa [Effect.led_count, Effect.children] using
    EffectList.ledCountSum_eq_sum_toList states'

mutual

/-- After `disable()`, a well-formed effect exposes only `Off` LEDs. -/
theorem Effect.disable_allLedsOff (e : Effect) (hwf : e.wf = true) :
    (Effect.disable e).allLedsOff = true := by
  match e with
  | .group sp cond states =>
    have ih := EffectList.disableAll_ledsAll_off states (by simpa [Effect.wf] using hwf)
    simpa [Effect.disable, Effect.allLedsOff, Effect.leds] using ih
  | .blink be =>
    have hoff : be.off_leds.allOff = true := by simpa [Effect.wf] using hwf
    cases hbc : be.blink_configuration <;>
      simp [Effect.disable, BlinkEffect.disable, Effect.allLedsOff, Effect.leds,
        BlinkEffect.ledsOf, BlinkConfiguration.update, hbc, hoff]
  | .rpmGradient ge =>
    simp [Effect.disable, RpmGradientEffect.disable, Effect.allLedsOff,
      Effect.leds, RpmGradientEffect.ledsOf, LedGroup.allOff, List.all_map,
      Function.comp]
  | .segment se =>
    have hoff : se.off_leds.allOff = true := by simpa [Effect.wf] using hwf
    simp [Effect.disable, LedSegment.disable, Effect.allLedsOff, Effect.leds,
      LedSegment.ledsOf, hoff]

/-- After disabling a well-formed child list, the flattened `leds()` holds
only `Off` LEDs. -/
theorem EffectList.disableAll_ledsAll_off (es : EffectList)
    (h : EffectList.wfAll es = true) :
    ((EffectList.disableAll es).ledsAll.all fun g => g.allOff) = true := by
  match es with
  | .nil => rfl
  | .cons e rest =>
    have h1 : e.wf = true := by
      have := h
      simp [EffectList.wfAll, Bool.and_eq_true] at this
      exact this.1
    have h2 : EffectList.wfAll rest = true := by
      have := h
      simp [EffectList.wfAll, Bool.and_eq_true] at this
      exact this.2
    have hrest := EffectList.disableAll_ledsAll_off rest h2
    have hhead := Effect.disable_allLedsOff e h1
    simp only [Effect.allLedsOff] at hhead
    simp [EffectList.disableAll, EffectList.ledsAll, List.all_append, hhead, hrest]

end

/-- C6: for every effect variant — a group (disabling recursively via the
parent), a flag/redline blink effect, an RPM gradient effect, or an RPM
segments sub-effect — after `disable()` is called, the next `leds()` read
presents every LED the effect owns as `Off`. The well-formedness hypothesis
records that the precomputed all-off snapshots stored in blink effects and
segments really are all-off, as every factory-built effect satisfies. -/
theorem effect_disable_presents_all_off (e : Effect) (hwf : e.wf = true) :
    (Effect.disable e).allLedsOff = true :=
  Effect.disable_allLedsOff e hwf

/-- C6 witness: disabling a concrete CarStarted group holding a yellow-flag
blink effect and an RPM gradient effect turns every exposed LED off. -/
theorem effect_disable_presents_all_off_witness :
    (Effect.disable
      (.group 1 (.CarStarted 5 .Waiting)
        (.cons (.blink (BlinkEffect.flag .Yellow
          { description := "", is_enabled := true, led_count := 3,
            start_position := 14, color := ⟨1, 1, 0, 1⟩, blink_enabled := true,
            blink_delay := 50, dual_blink_timing_enabled := false,
            off_delay := 75, on_delay := 12 } 14))
          (.cons (.rpmGradient (RpmGradientEffect.with_start_position
            { description := "", is_enabled := true, start_position := 1,
              led_count := 5, use_percent := true, percent_min := 85,
              percent_max := 95, rpm_min := 1000, rpm_max := 8000,
              start_color := ⟨0, 1, 0, 1⟩, end_color := ⟨1, 0, 0, 1⟩,
              right_to_left := false, blink_enabled := false,
              blink_delay := 200, blink_on_last_gear := false,
              gradient_on_all := false, fill_all_leds := false } 1))
            .nil)))).allLedsOff = true :=
  effect_disable_presents_all_off _ (by decide)

/-- The two-stop gradient sampled at position 0 is exactly the start color. -/
theorem gradientAt_zero (start_color end_color : Color) :
    gradientAt start_color end_color 4 0 = start_color := by
  simp [gradientAt]

/-- The two-stop gradient sampled at the end of the domain is exactly the end
color. -/
theorem gradientAt_top (start_color end_color : Color) :
    gradientAt start_color end_color 4 4 = end_color := by
  simp [gradientAt]

/-- C2: for the RPM gradient effect in percentage mode with
`percent_min = 85`, `percent_max = 95`, `led_count = 5` and a simulator
maximum RPM of 9000 (the `f64` arithmetic embedded as exact rationals):
updating with RPM at 85% of the maximum leaves 0 LEDs on; at 87% exactly one
LED is on, showing the start color; at 90% exactly two LEDs are on; at 95%
all five are on with the last showing the end color; and a subsequent update
at 10% turns all LEDs off again. -/
theorem rpm_gradient_percentage_scenario (sc ec : Color) :
    (scenarioE1 sc ec).state.onCount = 0
    ∧ (scenarioE2 sc ec).state.onCount = 1
    ∧ (scenarioE2 sc ec).state.leds.head? = some (.On sc)
    ∧ (scenarioE3 sc ec).state.onCount = 2
    ∧ (scenarioE4 sc ec).state.onCount = 5
    ∧ (scenarioE4 sc ec).state.leds.getLast? = some (.On ec)
    ∧ (scenarioE5 sc ec).state.onCount = 0 := by
  have h1 : scenarioE1 sc ec =
      { container := scenarioRpmContainer sc ec,
        state := ⟨1, [.Off, .Off, .Off, .Off, .Off]⟩,
        blink_state := .NotBlinking } := by
    simp [scenarioE1, scenarioStep, RpmGradientEffect.with_start_position,
      RpmGradientEffect.update, scenarioRpmMoment, scenarioRpmContainer,
      RpmGradientEffect.calculate_next_blink_state, Moment.redline_reached,
      RpmGradientEffect.calculate_how_many_leds_to_turn_on,
      RpmGradientEffect.renderLed, LedGroup.new, List.range_succ]
    norm_num
  have h2 : scenarioE2 sc ec =
      { container := scenarioRpmContainer sc ec,
        state := ⟨1, [.On sc, .Off, .Off, .Off, .Off]⟩,
        blink_state := .NotBlinking } := by
    rw [scenarioE2, scenarioStep, h1]
    simp [RpmGradientEffect.update, scenarioRpmMoment, scenarioRpmContainer,
      RpmGradientEffect.calculate_next_blink_state, Moment.redline_reached,
      RpmGradientEffect.calculate_how_many_leds_to_turn_on,
      RpmGradientEffect.renderLed, gradientAt, List.range_succ]
    norm_num
  have h3 : scenarioE3 sc ec =
      { container := scenarioRpmContainer sc ec,
        state := ⟨1, [.On (gradientAt sc ec 4 0), .On (gradientAt sc ec 4 1),
          .Off, .Off, .Off]⟩,
        blink_state := .NotBlinking } := by
    rw [scenarioE3, scenarioStep, h2]
    simp [RpmGradientEffect.update, scenarioRpmMoment, scenarioRpmContainer,
      RpmGradientEffect.calculate_next_blink_state, Moment.redline_reached,
      RpmGradientEffect.calculate_how_many_leds_to_turn_on,
      RpmGradientEffect.renderLed, List.range_succ]
    norm_num
  have h4 : scenarioE4 sc ec =
      { container := scenarioRpmContainer sc ec,
        state := ⟨1, [.On (gradientAt sc ec 4 0), .On (gradientAt sc ec 4 1),
          .On (gradientAt sc ec 4 2), .On (gradientAt sc ec 4 3),
          .On (gradientAt sc ec 4 4)]⟩,
        blink_state := .NotBlinking } := by
    rw [scenarioE4, scenarioStep, h3]
    simp [RpmGradientEffect.update, scenarioRpmMoment, scenarioRpmContainer,
      RpmGradientEffect.calculate_next_blink_state, Moment.redline_reached,
      RpmGradientEffect.calculate_how_many_leds_to_turn_on,
      RpmGradientEffect.renderLed, List.range_succ]
    norm_num
  have h5 : scenarioE5 sc ec =
      { container := scenarioRpmContainer sc ec,
        state := ⟨1, [.Off, .Off, .Off, .Off, .Off]⟩,
        blink_state := .NotBlinking } := by
    rw [scenarioE5, scenarioStep, h4]
    simp [RpmGradientEffect.update, scenarioRpmMoment, scenarioRpmContainer,
      RpmGradientEffect.calculate_next_blink_state, Moment.redline_reached,
      RpmGradientEffect.calculate_how_many_leds_to_turn_on,
      RpmGradientEffect.renderLed, List.range_succ]
    norm_num
  rw [h1, h2, h3, h4, h5]
  refine ⟨rfl, rfl, rfl, rfl, rfl, ?_, rfl⟩
  simp [gradientAt_top]

/-- Under `Layered` stacking the layout loop produces exactly the spec-side
`layeredSpecStates` child list, regardless of the incoming cursor. -/
theorem new_helper_loop_layered (group_start_position : Nat)
    (containers : LedContainerList) : ∀ cursor : Nat,
    (new_helper_loop group_start_position .Layered containers cursor).1 =
      layeredSpecStates group_start_position containers := by
  match containers with
  | .nil => intro cursor; simp [new_helper_loop, layeredSpecStates]
  | .cons c cs =>
    intro cursor
    have ih := new_helper_loop_layered group_start_position cs
    simp only [new_helper_loop, layeredSpecStates]
    by_cases hen : c.enabled
    · simp only [hen, Bool.not_true, Bool.false_eq_true, if_false, if_true,
        reduceIte]
      cases hc : create_led_effect c
          (satAdd group_start_position (c.start_position - 1)) with
      | none => simp [hc, ih]
      | some e => simp [hc, ih]
    · simp [hen, ih]

/-- Under `LeftToRight` stacking the layout loop produces exactly the
spec-side `ltrSpecStates` child list from the incoming cursor. -/
theorem new_helper_loop_ltr (group_start_position : Nat)
    (containers : LedContainerList) : ∀ cursor : Nat,
    (new_helper_loop group_start_position .LeftToRight containers cursor).1 =
      ltrSpecStates cursor containers := by
  match containers with
  | .nil => intro cursor; simp [new_helper_loop, ltrSpecStates]
  | .cons c cs =>
    intro cursor
    have ih := new_helper_loop_ltr group_start_position cs
    simp only [new_helper_loop, ltrSpecStates]
    by_cases hen : c.enabled
    · simp only [hen, Bool.not_true, Bool.false_eq_true, if_false, reduceIte]
      cases hc : create_led_effect c cursor with
      | none => simp [hc, ih]
      | some e => simp [hc, ih]
    · simp [hen, ih]

/-- C3 (counterexample to the claim as stated): an enabled nested Group child
with declared relative start 3, placed under a Layered parent whose absolute
start is 5, is built with start position 3 — `EffectGroup::new` ignores the
computed cursor position and uses the group's own declared start — whereas
the claim demands `5 ⊕ (3 − 1) = 7`. -/
theorem layered_group_child_ignores_computed_position :
    ((new_helper .AlwaysOn 5 .Layered
      (.cons (.Group (.Simple (.mk "" true .Layered 3 .nil))) .nil)).children.map
        Effect.start_led) = [3]
    ∧ (LedContainer.Group (.Simple (.mk "" true .Layered 3 .nil))).enabled = true
    ∧ satAdd 5 ((LedContainer.Group (.Simple (.mk "" true .Layered 3 .nil))).start_position - 1) = 7
    ∧ (3 : Nat) ≠ 7 := by
  have hsat : satAdd 5 2 = 7 := by norm_num [satAdd, usizeMax]
  have hchild : EffectGroup.new (.Simple (.mk "" true .Layered 3 .nil)) =
      .group 3 .AlwaysOn .nil := by
    simp [EffectGroup.new, new_helper, new_helper_loop]
  have hmain : new_helper .AlwaysOn 5 .Layered
      (.cons (.Group (.Simple (.mk "" true .Layered 3 .nil))) .nil) =
      .group 7 .AlwaysOn (.cons (.group 3 .AlwaysOn .nil) .nil) := by
    simp [new_helper, new_helper_loop, create_led_effect, hchild,
      LedContainer.enabled, GroupContainer.is_enabled,
      SimpleGroupContainer.is_enabled, LedContainer.start_position,
      GroupContainer.start_position, SimpleGroupContainer.start_position, hsat]
  refine ⟨?_, by decide, ?_, by decide⟩
  · rw [hmain]
    simp [Effect.children, EffectList.toList, Effect.start_led]
  · simpa [LedContainer.start_position, GroupContainer.start_position,
      SimpleGroupContainer.start_position] using hsat

/-- C3 (amended): when a group is built, its surviving child list is laid out
exactly as the spec's cursor description says — under `Layered` stacking
every surviving child is built at the parent's absolute start plus (its
declared relative start − 1) with saturating addition, and under
`LeftToRight` at a running cursor that begins at the parent's absolute start
and advances by each previously placed child's `led_count()` after that child
is built (a container that produces no effect node does not advance the
cursor) — and every built child that is not itself a nested Group adopts
that build position as its absolute start (`start_led`). A nested Group
child is instead built from its own declared start position, ignoring the
computed position. -/
theorem layout_resolver_spec :
    (∀ (condition : GroupCondition) (group_start_position : Nat)
      (containers : LedContainerList),
      (new_helper condition group_start_position .Layered containers).children =
        (layeredSpecStates group_start_position containers).toList)
    ∧ (∀ (condition : GroupCondition) (group_start_position : Nat)
      (containers : LedContainerList),
      (new_helper condition group_start_position .LeftToRight containers).children =
        (ltrSpecStates group_start_position containers).toList)
    ∧ ∀ (c : LedContainer) (pos : Nat) (e : Effect), c.isGroup = false →
      create_led_effect c pos = some e → e.start_led = pos := by
  refine ⟨fun condition gs cs => ?_, fun condition gs cs => ?_,
    fun c pos e hng hc => ?_⟩
  · simp [new_helper, Effect.children, new_helper_loop_layered gs cs]
  · simp [new_helper, Effect.children, new_helper_loop_ltr gs cs]
  · cases c with
    | Rpm cc =>
      simp only [create_led_effect, Option.some.injEq] at hc
      subst hc
      rfl
    | RpmSegments cc => simp [create_led_effect] at hc
    | SpeedLimiterAnimation cc => simp [create_led_effect] at hc
    | Group cc => simp [LedContainer.isGroup] at hng
    | BlueFlag cc =>
      simp only [create_led_effect, Option.some.injEq] at hc
      subst hc
      rfl
    | WhiteFlag cc =>
      simp only [create_led_effect, Option.some.injEq] at hc
      subst hc
      rfl
    | YellowFlag cc =>
      simp only [create_led_effect, Option.some.injEq] at hc
      subst hc
      rfl
    | RedlineReached cc =>
      simp only [create_led_effect, Option.some.injEq] at hc
      subst hc
      rfl
    | Unknown sp t content => simp [create_led_effect] at hc

/-- C3 witness: a non-group (yellow flag) container built at position 7
adopts 7 as its absolute start. -/
theorem layout_resolver_spec_witness :
    Effect.start_led (.blink (BlinkEffect.flag .Yellow
      { description := "", is_enabled := true, led_count := 3,
        start_position := 1, color := ⟨1, 1, 0, 1⟩, blink_enabled := true,
        blink_delay := 50, dual_blink_timing_enabled := false,
        off_delay := 75, on_delay := 12 } 7)) = 7 :=
  layout_resolver_spec.2.2
    (.YellowFlag
      { description := "", is_enabled := true, led_count := 3,
        start_position := 1, color := ⟨1, 1, 0, 1⟩, blink_enabled := true,
        blink_delay := 50, dual_blink_timing_enabled := false,
        off_delay := 75, on_delay := 12 }) 7 _ (by decide)
    (by simp [create_led_effect])

/-- C10 witness: the Waiting state is preserved on a moment whose starter
flag is unavailable even though the RPM is positive. -/
theorem is_engine_running_spec_witness :
    Effect.update 3
      { flags := none, vehicle_engine_rotation_speed := some 500,
        vehicle_max_engine_rotation_speed := some 9000, vehicle_gear := none,
        is_starter_on := none, rpm_percentage := 0, redline_rpm := 0 }
      (.group 1 (.CarStarted 10 .Waiting) .nil) =
      .group 1 (.CarStarted 10 .Waiting) .nil :=
  is_engine_running_spec.2 3 _ 1 10 .nil rfl

end Simtools
